import Mathlib

/-!
# Verification of the GPU bootloader protocol driver (`shared/gpu.py`)

A shallow embedding of the I2C bootloader-ROM access code.  The I2C bus is
modelled by an oracle `D : Nat → ReadResult` giving the device's response to
the k-th `readfrom` call issued on the bus, together with an explicit
`BusState` recording how many reads have been issued and the full trace of
bus events (writes, reads, sleeps).  Python exceptions are modelled with
`Except PyError`; a raised exception does not roll back the trace, so every
operation returns `Except PyError α × BusState`.
-/

set_option maxRecDepth 4000

namespace GPU

/-- Result of one `i2c.readfrom` call: either the bytes returned by the
device, or the bus-level `OSError` (ENODEV, device not responding). -/
inductive ReadResult where
  | ok (bs : List Nat)
  | enodev
deriving DecidableEq, Repr

/-- One observable event on the bus / clock. -/
inductive BusEvent where
  | write (dev : Nat) (data : List Nat)
  | read (dev : Nat) (count : Nat) (result : ReadResult)
  | sleep (ms : Nat)
deriving DecidableEq, Repr

/-- Bus state: number of `readfrom` calls issued so far (index into the
device oracle) and the trace of all events so far. -/
structure BusState where
  reads : Nat
  events : List BusEvent
deriving DecidableEq, Repr

/-- Python exceptions raised by the driver. -/
inductive PyError where
  | valueError (msg : String)           -- `raise ValueError('...')`
  | valueErrorBytes (resp : List Nat)   -- `raise ValueError(resp)`
  | osError                             -- uncaught `OSError` from `readfrom`
  | nameError                           -- local variable read before assignment
  | assertionError                      -- failed `assert`
  | structError                         -- `struct.pack` argument out of range
deriving DecidableEq, Repr

/-- Constant `BL_ADDR = const(0x64)` — bus address the bootloader ROM responds to. -/
def BL_ADDR : Nat := 0x64

/-- Constant `BL_ACK = b'y'` (0x79). -/
def BL_ACK : List Nat := [0x79]

/-- Constant `BL_NACK` (0x1f). -/
def BL_NACK : List Nat := [0x1f]

/-- Constant `BL_BUSY = b'v'` (0x76). -/
def BL_BUSY : List Nat := [0x76]

/-- Constant `FLASH_START = const(0x0800_0000)`. -/
def FLASH_START : Nat := 0x08000000

/-- Python `bytes(lst)` applied to a list of Python ints: raises `ValueError`
unless every element is in `[0, 256)`. -/
def pybytes (xs : List Int) : Except PyError (List Nat) :=
  if xs.all (fun x => 0 ≤ x ∧ x < 256) then
    .ok (xs.map Int.toNat)
  else
    .error (.valueError "bytes must be in range(0, 256)")

/-- The 4 big-endian bytes of an unsigned 32-bit value. -/
def be32 (n : Nat) : List Nat :=
  [n / 2 ^ 24 % 256, n / 2 ^ 16 % 256, n / 2 ^ 8 % 256, n % 256]

/-- Python `struct.pack('>I', n)` — 4 big-endian bytes; raises for values
outside the unsigned 32-bit range. -/
def pack_be32 (n : Int) : Except PyError (List Nat) :=
  if 0 ≤ n ∧ n < 2 ^ 32 then
    .ok (be32 n.toNat)
  else
    .error .structError

/-- Function `add_xor_check(lst)`: byte-wise xor over a list of bytes, appended as a
trailing (very weak) checksum byte. -/
def add_xor_check (lst : List Nat) : List Nat :=
  lst ++ [lst.foldl (fun rv b => rv ^^^ b) 0]

/-- Method `i2c.writeto(dev, data)` — records the write on the trace. -/
def i2c_writeto (s : BusState) (dev : Nat) (data : List Nat) : BusState :=
  { s with events := s.events ++ [.write dev data] }

/-- Method `i2c.readfrom(dev, count)` — consults the device oracle at the current
read index and records the read on the trace. -/
def i2c_readfrom (D : Nat → ReadResult) (s : BusState) (dev : Nat) (count : Nat) :
    ReadResult × BusState :=
  (D s.reads, { reads := s.reads + 1, events := s.events ++ [.read dev count (D s.reads)] })

/-- Function `utime.sleep_ms(ms)` — records the sleep on the trace. -/
def sleep_ms (s : BusState) (ms : Nat) : BusState :=
  { s with events := s.events ++ [.sleep ms] }

/-- Method `GPUAccess._send_cmd(cmd)`: write the frame `bytes([cmd, 0xff ^ cmd])`
to `BL_ADDR`, read one status byte, raise `ValueError('unknown command')`
unless it equals `BL_ACK`. -/
def send_cmd (D : Nat → ReadResult) (cmd : Int) (s : BusState) :
    Except PyError Unit × BusState :=
  match pybytes [cmd, Int.xor 0xff cmd] with
  | .error e => (.error e, s)
  | .ok frame =>
    let s := i2c_writeto s BL_ADDR frame
    match i2c_readfrom D s BL_ADDR 1 with
    | (.enodev, s) => (.error .osError, s)
    | (.ok resp, s) =>
      if resp = BL_ACK then (.ok (), s)
      else (.error (.valueError "unknown command"), s)

/-- The `for retry in range(100)` loop of `GPUAccess._wait_done`, with the
remaining iteration budget explicit and `resp` the last value assigned to
the loop's local variable (`none` while it is still unassigned).  An
`OSError` from `readfrom` sleeps 50 ms and retries; a `BL_BUSY` response
sleeps 20 ms and retries; any other response breaks out of the loop.  When
the budget is exhausted the function returns the last assigned `resp`,
raising `NameError` if no read ever succeeded. -/
def wait_loop (D : Nat → ReadResult) :
    Nat → Option (List Nat) → BusState → Except PyError (List Nat) × BusState
  | 0, resp, s =>
    match resp with
    | some r => (.ok r, s)
    | none => (.error .nameError, s)
  | fuel + 1, resp, s =>
    match i2c_readfrom D s BL_ADDR 1 with
    | (.enodev, s) => wait_loop D fuel resp (sleep_ms s 50)
    | (.ok r, s) =>
      if r ≠ BL_BUSY then (.ok r, s)
      else wait_loop D fuel (some r) (sleep_ms s 20)

/-- Method `GPUAccess._wait_done()`: up to 100 polling attempts. -/
def wait_done (D : Nat → ReadResult) (s : BusState) :
    Except PyError (List Nat) × BusState :=
  wait_loop D 100 none s

/-- A Python argument that is either an `int` or a `bytes` object
(the code dispatches on `isinstance(•, int)`). -/
inductive IntOrBytes where
  | int (n : Int)
  | bytes (bs : List Nat)
deriving DecidableEq, Repr

/-- Method `GPUAccess.bl_cmd_read(cmd, expect_len, addr, arg2, no_final)`:
send a one-byte command to the bootloader ROM and get the response.
Returns `none` when `expect_len == 0` (the Python `return` with no value),
otherwise `some` of the `expect_len` bytes read. -/
def bl_cmd_read (D : Nat → ReadResult) (cmd : Int) (expect_len : Nat)
    (addr : Option IntOrBytes) (arg2 : Option IntOrBytes) (no_final : Bool)
    (s : BusState) : Except PyError (Option (List Nat)) × BusState :=
  match send_cmd D cmd s with
  | (.error e, s) => (.error e, s)
  | (.ok _, s) =>
    -- `if addr is not None:` — write 4 bytes of address (or verbatim bytes)
    match (match addr with
           | none => .ok (none, s)
           | some a =>
             match (match a with
                    | .int n => (pack_be32 n).map add_xor_check
                    | .bytes bs => .ok bs) with
             | .error e => .error (e, s)
             | .ok qq =>
               let s := i2c_writeto s BL_ADDR qq
               match i2c_readfrom D s BL_ADDR 1 with
               | (.enodev, s) => .error (.osError, s)
               | (.ok resp, s) =>
                 if resp = BL_ACK then .ok (none, s)
                 else .error (.valueError "bad addr", s) :
            Except (PyError × BusState) (Option Unit × BusState)) with
    | .error (e, s) => (.error e, s)
    | .ok (_, s) =>
      -- `if arg2 is not None:` — write second argument
      match (match arg2 with
             | none => .ok (none, s)
             | some a =>
               match (match a with
                      | .int n => pybytes [n, Int.xor 0xff n]
                      | .bytes bs => .ok (add_xor_check bs)) with
               | .error e => .error (e, s)
               | .ok frame =>
                 let s := i2c_writeto s BL_ADDR frame
                 match i2c_readfrom D s BL_ADDR 1 with
                 | (.enodev, s) => .error (.osError, s)
                 | (.ok resp, s) =>
                   if resp = BL_ACK then .ok (none, s)
                   else .error (.valueError "bad arg2", s) :
              Except (PyError × BusState) (Option Unit × BusState)) with
      | .error (e, s) => (.error e, s)
      | .ok (_, s) =>
        if expect_len = 0 then (.ok none, s)
        else
          match i2c_readfrom D s BL_ADDR expect_len with
          | (.enodev, s) => (.error .osError, s)
          | (.ok rv, s) =>
            if no_final then (.ok (some rv), s)
            else
              -- final ack/nack
              match i2c_readfrom D s BL_ADDR 1 with
              | (.enodev, s) => (.error .osError, s)
              | (.ok resp, s) =>
                if resp = BL_ACK then (.ok (some rv), s)
                else (.error (.valueErrorBytes resp), s)

/-- Method `GPUAccess.bl_doit(cmd, arg)`: send a one-byte command and an argument
(as an `add_xor_check` frame), wait until done. -/
def bl_doit (D : Nat → ReadResult) (cmd : Int) (arg : List Nat) (s : BusState) :
    Except PyError (List Nat) × BusState :=
  match send_cmd D cmd s with
  | (.error e, s) => (.error e, s)
  | (.ok _, s) =>
    let s := i2c_writeto s BL_ADDR (add_xor_check arg)
    wait_done D s

/-- Method `GPUAccess.bl_double_ack(cmd)`: some commands need two acks. -/
def bl_double_ack (D : Nat → ReadResult) (cmd : Int) (s : BusState) :
    Except PyError (List Nat) × BusState :=
  match send_cmd D cmd s with
  | (.error e, s) => (.error e, s)
  | (.ok _, s) =>
    match wait_done D s with
    | (.error e, s) => (.error e, s)
    | (.ok resp, s) =>
      if resp = BL_ACK then wait_done D s
      else (.ok resp, s)

/-- Method `GPUAccess.get_version()`: `bl_cmd_read(0x0, 20)`. -/
def get_version (D : Nat → ReadResult) (s : BusState) :
    Except PyError (Option (List Nat)) × BusState :=
  bl_cmd_read D 0x0 20 none none false s

/-- Method `GPUAccess.bulk_erase()`: "No-Stretch Erase Memory" with `0xFFFF` arg =
"global mass erase"; true iff the final status is `BL_ACK`. -/
def bulk_erase (D : Nat → ReadResult) (s : BusState) :
    Except PyError Bool × BusState :=
  match bl_doit D 0x45 [0xff, 0xff] s with
  | (.error e, s) => (.error e, s)
  | (.ok resp, s) => (.ok (resp = BL_ACK), s)

/-- Method `GPUAccess.readout_unprotect()`: `bl_double_ack(0x93)`. -/
def readout_unprotect (D : Nat → ReadResult) (s : BusState) :
    Except PyError (List Nat) × BusState :=
  bl_double_ack D 0x93 s

/-- Method `GPUAccess.readout_protect()`: `bl_double_ack(0x83)`. -/
def readout_protect (D : Nat → ReadResult) (s : BusState) :
    Except PyError (List Nat) × BusState :=
  bl_double_ack D 0x83 s

/-- Method `GPUAccess.read_at(addr, ln)`: read memory;
`assert ln <= 256`, then `bl_cmd_read(0x11, ln, addr=addr, arg2=ln-1,
no_final=True)`. -/
def read_at (D : Nat → ReadResult) (addr : Int) (ln : Nat) (s : BusState) :
    Except PyError (Option (List Nat)) × BusState :=
  if ln ≤ 256 then
    bl_cmd_read D 0x11 ln (some (.int addr)) (some (.int ((ln : Int) - 1))) true s
  else
    (.error .assertionError, s)

/-- Method `GPUAccess.write_at(addr, data)`: "No-Stretch Write Memory command".
Asserts `len(data) <= 256`, `len(data) % 4 == 0`, `addr % 4 == 0`; builds
`arg = add_xor_check(bytes([ln-1]) + data)`; sends cmd + addr via
`bl_cmd_read(0x32, 0, addr=addr, arg2=None)`; writes `arg`; waits until
done; true iff final status is `BL_ACK`. -/
def write_at (D : Nat → ReadResult) (addr : Int) (data : List Nat) (s : BusState) :
    Except PyError Bool × BusState :=
  let ln := data.length
  if ln ≤ 256 ∧ ln % 4 = 0 ∧ addr % 4 = 0 then
    match pybytes [(ln : Int) - 1] with
    | .error e => (.error e, s)
    | .ok lb =>
      let arg := add_xor_check (lb ++ data)
      match bl_cmd_read D 0x32 0 (some (.int addr)) none false s with
      | (.error e, s) => (.error e, s)
      | (.ok _, s) =>
        let s := i2c_writeto s BL_ADDR arg
        match wait_done D s with
        | (.error e, s) => (.error e, s)
        | (.ok resp, s) => (.ok (resp = BL_ACK), s)
  else
    (.error .assertionError, s)

/-- Method `GPUAccess.run_at(addr)`: "Go command" —
`bl_cmd_read(0x21, 0, addr=addr)`. -/
def run_at (D : Nat → ReadResult) (addr : Int) (s : BusState) :
    Except PyError (Option (List Nat)) × BusState :=
  bl_cmd_read D 0x21 0 (some (.int addr)) none false s

/-! ## Helper lemmas -/

theorem sleep_ms_reads (s : BusState) (ms : Nat) : (sleep_ms s ms).reads = s.reads := rfl

theorem wait_loop_reads_le (D : Nat → ReadResult) (fuel : Nat) :
    ∀ (resp : Option (List Nat)) (s : BusState),
      (wait_loop D fuel resp s).2.reads ≤ s.reads + fuel := by
  induction fuel with
  | zero => intro resp s; cases resp <;> simp [wait_loop]
  | succ n ih =>
    intro resp s
    simp only [wait_loop, i2c_readfrom]
    cases D s.reads with
    | enodev =>
      have h := ih resp (sleep_ms ⟨s.reads + 1, s.events ++ [.read BL_ADDR 1 .enodev]⟩ 50)
      simp only [sleep_ms] at h ⊢
      omega
    | ok r =>
      by_cases hr : r = BL_BUSY
      · subst hr
        simp only [ne_eq, not_true_eq_false, if_false]
        have h := ih (some BL_BUSY)
          (sleep_ms ⟨s.reads + 1, s.events ++ [.read BL_ADDR 1 (.ok BL_BUSY)]⟩ 20)
        simp only [sleep_ms] at h ⊢
        omega
      · simp only [ne_eq, hr, not_false_eq_true, if_true]
        omega

theorem xor_byte_lt (a b : Nat) (ha : a < 256) (hb : b < 256) : a ^^^ b < 256 :=
  Nat.bitwise_lt_two_pow (n := 8) ha hb

theorem int_xor_ofNat (a b : Nat) : Int.xor (a : Int) (b : Int) = ((a ^^^ b : Nat) : Int) := rfl

theorem pybytes_byte_pair (c : Nat) (hc : c < 256) :
    pybytes [(c : Int), Int.xor 0xff (c : Int)] = .ok [c, 255 ^^^ c] := by
  have hx : Int.xor 0xff (c : Int) = ((255 ^^^ c : Nat) : Int) := int_xor_ofNat 255 c
  have hlt : 255 ^^^ c < 256 := xor_byte_lt 255 c (by omega) hc
  rw [pybytes, hx, if_pos]
  · rfl
  · simp only [List.all_cons, List.all_nil, Bool.and_true, Bool.and_eq_true,
      decide_eq_true_eq]
    refine ⟨⟨?_, ?_⟩, ?_, ?_⟩ <;> omega

theorem send_cmd_eq (D : Nat → ReadResult) (cmd : Int) (h0 : 0 ≤ cmd) (h1 : cmd < 256)
    (s : BusState) :
    send_cmd D cmd s =
      ((match D s.reads with
        | .ok bs => if bs = BL_ACK then .ok () else .error (.valueError "unknown command")
        | .enodev => .error .osError),
       ⟨s.reads + 1,
        s.events ++ [.write BL_ADDR [cmd.toNat, 255 ^^^ cmd.toNat],
          .read BL_ADDR 1 (D s.reads)]⟩) := by
  obtain ⟨c, rfl⟩ := Int.eq_ofNat_of_zero_le h0
  have hc : c < 256 := by exact_mod_cast h1
  simp only [send_cmd, pybytes_byte_pair c hc, i2c_writeto, i2c_readfrom, Int.toNat_ofNat]
  cases D s.reads with
  | enodev => simp
  | ok bs =>
    by_cases hb : bs = BL_ACK <;> simp [hb]

theorem pybytes_len_minus_one (ln : Nat) (hpos : 0 < ln) (hle : ln ≤ 256) :
    pybytes [(ln : Int) - 1] = .ok [ln - 1] := by
  rw [pybytes, if_pos]
  · have : ((ln : Int) - 1).toNat = ln - 1 := by omega
    simp [this]
  · simp only [List.all_cons, List.all_nil, Bool.and_true, decide_eq_true_eq]
    omega

theorem bl_cmd_read_preamble (D : Nat → ReadResult) (cmd : Int) (h0 : 0 ≤ cmd)
    (h1 : cmd < 256) (a : Int) (ha0 : 0 ≤ a) (ha1 : a < 2 ^ 32) (s : BusState)
    (hD0 : D s.reads = .ok BL_ACK) (hD1 : D (s.reads + 1) = .ok BL_ACK) :
    bl_cmd_read D cmd 0 (some (.int a)) none false s =
      (.ok none,
       ⟨s.reads + 2,
        s.events ++ [.write BL_ADDR [cmd.toNat, 255 ^^^ cmd.toNat],
          .read BL_ADDR 1 (.ok BL_ACK),
          .write BL_ADDR (add_xor_check (be32 a.toNat)),
          .read BL_ADDR 1 (.ok BL_ACK)]⟩) := by
  have ha1' : a < (4294967296 : Int) := by omega
  simp only [bl_cmd_read, send_cmd_eq D cmd h0 h1, hD0]
  simp [pack_be32, i2c_writeto, i2c_readfrom, hD1, ha0, ha1', Except.map]

theorem wait_loop_all_enodev (D : Nat → ReadResult) (fuel : Nat) :
    ∀ s, (∀ k, k < fuel → D (s.reads + k) = .enodev) →
      (wait_loop D fuel none s).1 = .error .nameError := by
  induction fuel with
  | zero => intro s _; rfl
  | succ n ih =>
    intro s h
    have h0 : D s.reads = .enodev := by simpa using h 0 (Nat.succ_pos n)
    simp only [wait_loop, i2c_readfrom, h0]
    apply ih
    intro k hk
    have hx := h (k + 1) (by omega)
    simp only [sleep_ms]
    rw [show s.reads + 1 + k = s.reads + (k + 1) by omega]
    exact hx

/-! ## Claim theorems -/

/-- C1: `_wait_done` performs at most 100 status-read attempts and always
terminates; under a device that returns BUSY on every attempt it performs
exactly 100 read attempts, each followed by a ~20 ms sleep, and returns
BUSY rather than raising; attempts that hit the bus-level device-absent
error sleep ~50 ms and retry while consuming attempts from the same budget
of 100 (here: 99 absent attempts then an ACKNOWLEDGE still fit the budget). -/
theorem wait_done_bounded_termination :
    (∀ D s, (wait_done D s).2.reads ≤ s.reads + 100) ∧
    wait_done (fun _ => .ok BL_BUSY) ⟨0, []⟩ =
      (.ok BL_BUSY,
       ⟨100, (List.replicate 100 [BusEvent.read BL_ADDR 1 (.ok BL_BUSY), .sleep 20]).flatten⟩) ∧
    wait_done (fun k => if k < 99 then .enodev else .ok BL_ACK) ⟨0, []⟩ =
      (.ok BL_ACK,
       ⟨100, (List.replicate 99 [BusEvent.read BL_ADDR 1 .enodev, .sleep 50]).flatten
              ++ [.read BL_ADDR 1 (.ok BL_ACK)]⟩) := by
  refine ⟨fun D s => wait_loop_reads_le D 100 none s, ?_, ?_⟩ <;> rfl

/-- C9: if every one of `_wait_done`'s 100 read attempts raises the
device-not-responding condition, the function does not return a status at
all — the local variable holding the last response is never assigned, so it
raises (`NameError`) after exhausting all 100 attempts. -/
theorem wait_done_all_enodev_raises :
    (∀ D s, (∀ k, k < 100 → D (s.reads + k) = .enodev) →
        (wait_done D s).1 = .error .nameError) ∧
    wait_done (fun _ => .enodev) ⟨0, []⟩ =
      (.error .nameError,
       ⟨100, (List.replicate 100 [BusEvent.read BL_ADDR 1 .enodev, .sleep 50]).flatten⟩) := by
  refine ⟨fun D s h => wait_loop_all_enodev D 100 s h, ?_⟩
  rfl

/-- Witness for C9: a concrete always-absent device makes `_wait_done`
raise rather than return a status. -/
theorem wait_done_all_enodev_raises_witness :
    (wait_done (fun _ => .enodev) ⟨5, []⟩).1 = .error .nameError :=
  wait_done_all_enodev_raises.1 (fun _ => .enodev) ⟨5, []⟩ (fun _ _ => rfl)

/-- C3: for every byte sequence `s`, `add_xor_check s` is `s` followed by
exactly one extra byte equal to the bitwise XOR of all bytes of `s` (`0`
for empty `s`); the output has length `s.length + 1` and the XOR of all
bytes of the output is `0`. -/
theorem add_xor_check_spec (s : List Nat) :
    add_xor_check s = s ++ [s.foldl (fun rv b => rv ^^^ b) 0] ∧
    (add_xor_check s).length = s.length + 1 ∧
    (add_xor_check s).foldl (fun rv b => rv ^^^ b) 0 = 0 := by
  refine ⟨rfl, by simp [add_xor_check], ?_⟩
  simp [add_xor_check, List.foldl_append]

/-- C5: `read_at` and `write_at` reject every length greater than 256 with
an `assert` failure raised with the bus state unchanged (no bus read or
write occurs); `write_at` additionally rejects, also with no bus traffic,
every `data` whose length is not a multiple of 4 and every address not
divisible by 4. -/
theorem read_write_preconditions :
    (∀ D (a : Int) (ln : Nat) s, 256 < ln →
        read_at D a ln s = (.error .assertionError, s)) ∧
    (∀ D (a : Int) (data : List Nat) s, 256 < data.length →
        write_at D a data s = (.error .assertionError, s)) ∧
    (∀ D (a : Int) (data : List Nat) s, data.length % 4 ≠ 0 →
        write_at D a data s = (.error .assertionError, s)) ∧
    (∀ D (a : Int) (data : List Nat) s, a % 4 ≠ 0 →
        write_at D a data s = (.error .assertionError, s)) := by
  refine ⟨?_, ?_, ?_, ?_⟩
  · intro D a ln s h
    rw [read_at, if_neg (by omega)]
  · intro D a data s h
    rw [write_at, if_neg (by rintro ⟨h1, -, -⟩; omega)]
  · intro D a data s h
    rw [write_at, if_neg (by rintro ⟨-, h2, -⟩; exact h h2)]
  · intro D a data s h
    rw [write_at, if_neg (by rintro ⟨-, -, h3⟩; exact h h3)]

/-- C2: for every command byte `c`, `_send_cmd` writes exactly the 2-byte
frame `[c, 0xFF ^ c]` to the fixed bootloader bus address `BL_ADDR = 0x64`,
then reads exactly one status byte; it returns normally when that byte
equals ACKNOWLEDGE (0x79) and raises `ValueError('unknown command')` on any
other status byte (an absent device propagates the bus-level error instead). -/
theorem send_cmd_frame_ack (c : Fin 256) (D : Nat → ReadResult) (s : BusState) :
    send_cmd D ((c : Nat) : Int) s =
      ((match D s.reads with
        | .ok bs => if bs = BL_ACK then .ok () else .error (.valueError "unknown command")
        | .enodev => .error .osError),
       ⟨s.reads + 1,
        s.events ++ [.write BL_ADDR [c, 255 ^^^ (c : Nat)],
          .read BL_ADDR 1 (D s.reads)]⟩) := by
  have h := send_cmd_eq D ((c : Nat) : Int) (by positivity) (by exact_mod_cast c.isLt) s
  simpa using h

/-- C6: `bl_double_ack(cmd)` first performs `_send_cmd(cmd)` and one
`_wait_done`; if and only if that first wait returns ACKNOWLEDGE it
performs a second `_wait_done` (from the state the first one left) and
returns that second result; for any other first result it returns the
first result with the state unchanged — no second poll is issued. -/
theorem bl_double_ack_spec (D : Nat → ReadResult) (cmd : Int) (s s1 s2 : BusState)
    (r : List Nat)
    (hsend : send_cmd D cmd s = (.ok (), s1))
    (hwait : wait_done D s1 = (.ok r, s2)) :
    bl_double_ack D cmd s = if r = BL_ACK then wait_done D s2 else (.ok r, s2) := by
  simp only [bl_double_ack, hsend, hwait]

/-- Witness for C6: a device that acknowledges the command byte but answers
the first poll with NEGATIVE-ACKNOWLEDGE makes `bl_double_ack` return that
NACK after exactly two reads; an always-acknowledging device gets a second
poll and returns its result after exactly three reads. -/
theorem bl_double_ack_spec_witness :
    bl_double_ack (fun k => if k = 0 then .ok BL_ACK else .ok BL_NACK) 0x93 ⟨0, []⟩ =
      (.ok BL_NACK,
       ⟨2, [.write BL_ADDR [0x93, 0x6C], .read BL_ADDR 1 (.ok BL_ACK),
            .read BL_ADDR 1 (.ok BL_NACK)]⟩) ∧
    bl_double_ack (fun _ => .ok BL_ACK) 0x93 ⟨0, []⟩ =
      (.ok BL_ACK,
       ⟨3, [.write BL_ADDR [0x93, 0x6C], .read BL_ADDR 1 (.ok BL_ACK),
            .read BL_ADDR 1 (.ok BL_ACK), .read BL_ADDR 1 (.ok BL_ACK)]⟩) := by
  constructor
  · have h := bl_double_ack_spec (fun k => if k = 0 then .ok BL_ACK else .ok BL_NACK) 0x93
      ⟨0, []⟩ ⟨1, [.write BL_ADDR [0x93, 0x6C], .read BL_ADDR 1 (.ok BL_ACK)]⟩
      ⟨2, [.write BL_ADDR [0x93, 0x6C], .read BL_ADDR 1 (.ok BL_ACK),
           .read BL_ADDR 1 (.ok BL_NACK)]⟩ BL_NACK rfl rfl
    simpa using h
  · have h := bl_double_ack_spec (fun _ => .ok BL_ACK) 0x93
      ⟨0, []⟩ ⟨1, [.write BL_ADDR [0x93, 0x6C], .read BL_ADDR 1 (.ok BL_ACK)]⟩
      ⟨2, [.write BL_ADDR [0x93, 0x6C], .read BL_ADDR 1 (.ok BL_ACK),
           .read BL_ADDR 1 (.ok BL_ACK)]⟩ BL_ACK rfl rfl
    simpa using h

/-- C7: in `bl_cmd_read`, an integer address is encoded as exactly 4
big-endian bytes followed by one XOR-check byte over those 4 bytes, while a
supplied byte sequence is written verbatim; after writing the address frame
exactly one status byte is read, and unless it equals ACKNOWLEDGE the
exchange aborts with `ValueError('bad addr')` — no argument frame or
payload read is issued after the failure (for any `arg2`, `expect_len`,
`no_final`). -/
theorem bl_cmd_read_bad_addr :
    (∀ D (cmd : Int) (el : Nat) (arg2 : Option IntOrBytes) (nf : Bool) (a : Int)
        (r : List Nat) s,
        0 ≤ cmd → cmd < 256 → 0 ≤ a → a < 2 ^ 32 →
        D s.reads = .ok BL_ACK → D (s.reads + 1) = .ok r → r ≠ BL_ACK →
        bl_cmd_read D cmd el (some (.int a)) arg2 nf s =
          (.error (.valueError "bad addr"),
           ⟨s.reads + 2,
            s.events ++ [.write BL_ADDR [cmd.toNat, 255 ^^^ cmd.toNat],
              .read BL_ADDR 1 (.ok BL_ACK),
              .write BL_ADDR (add_xor_check (be32 a.toNat)),
              .read BL_ADDR 1 (.ok r)]⟩)) ∧
    (∀ D (cmd : Int) (el : Nat) (arg2 : Option IntOrBytes) (nf : Bool)
        (bs : List Nat) (r : List Nat) s,
        0 ≤ cmd → cmd < 256 →
        D s.reads = .ok BL_ACK → D (s.reads + 1) = .ok r → r ≠ BL_ACK →
        bl_cmd_read D cmd el (some (.bytes bs)) arg2 nf s =
          (.error (.valueError "bad addr"),
           ⟨s.reads + 2,
            s.events ++ [.write BL_ADDR [cmd.toNat, 255 ^^^ cmd.toNat],
              .read BL_ADDR 1 (.ok BL_ACK),
              .write BL_ADDR bs,
              .read BL_ADDR 1 (.ok r)]⟩)) := by
  constructor
  · intro D cmd el arg2 nf a r s h0 h1 ha0 ha1 hD0 hD1 hr
    have ha1' : a < (4294967296 : Int) := by omega
    simp only [bl_cmd_read, send_cmd_eq D cmd h0 h1, hD0]
    simp [pack_be32, i2c_writeto, i2c_readfrom, hD1, ha0, ha1', hr, Except.map]
  · intro D cmd el arg2 nf bs r s h0 h1 hD0 hD1 hr
    simp only [bl_cmd_read, send_cmd_eq D cmd h0 h1, hD0]
    simp [i2c_writeto, i2c_readfrom, hD1, hr]

/-- Witness for C7: a device that acknowledges command 0x11 but answers the
address frame for `0x08000100` with NACK makes `bl_cmd_read` abort with the
bad-address error after exactly two writes and two reads; likewise for a
verbatim pre-built address frame. -/
theorem bl_cmd_read_bad_addr_witness :
    bl_cmd_read (fun k => if k = 0 then .ok BL_ACK else .ok BL_NACK) 0x11 16
        (some (.int 0x08000100)) (some (.int 15)) true ⟨0, []⟩ =
      (.error (.valueError "bad addr"),
       ⟨2, [.write BL_ADDR [0x11, 0xEE], .read BL_ADDR 1 (.ok BL_ACK),
            .write BL_ADDR [0x08, 0x00, 0x01, 0x00, 0x09],
            .read BL_ADDR 1 (.ok BL_NACK)]⟩) ∧
    bl_cmd_read (fun k => if k = 0 then .ok BL_ACK else .ok BL_NACK) 0x11 16
        (some (.bytes [0x08, 0x00, 0x01, 0x00, 0x09])) none false ⟨0, []⟩ =
      (.error (.valueError "bad addr"),
       ⟨2, [.write BL_ADDR [0x11, 0xEE], .read BL_ADDR 1 (.ok BL_ACK),
            .write BL_ADDR [0x08, 0x00, 0x01, 0x00, 0x09],
            .read BL_ADDR 1 (.ok BL_NACK)]⟩) := by
  constructor
  · have h := bl_cmd_read_bad_addr.1 (fun k => if k = 0 then .ok BL_ACK else .ok BL_NACK)
      0x11 16 (some (.int 15)) true 0x08000100 BL_NACK ⟨0, []⟩
      (by omega) (by omega) (by omega) (by omega) rfl rfl (by decide)
    simpa using h
  · have h := bl_cmd_read_bad_addr.2 (fun k => if k = 0 then .ok BL_ACK else .ok BL_NACK)
      0x11 16 none false [0x08, 0x00, 0x01, 0x00, 0x09] BL_NACK ⟨0, []⟩
      (by omega) (by omega) rfl rfl (by decide)
    simpa using h

/-- C4: for every address and non-empty data meeting the preconditions,
`write_at` performs exactly this sequence: command frame `[0x32, 0xCD]`,
ack check, 4-byte big-endian address frame with XOR byte, ack check, no
payload read, then one argument frame consisting of the byte
`data.length - 1`, the data, and a trailing XOR byte, then `_wait_done`;
it returns true if and only if the final status equals ACKNOWLEDGE. -/
theorem write_at_spec (D : Nat → ReadResult) (a : Int) (data : List Nat)
    (s s3 : BusState) (r : List Nat)
    (h0 : 0 ≤ a) (h1 : a < 2 ^ 32) (ha4 : a % 4 = 0)
    (hpos : 0 < data.length) (hlen : data.length ≤ 256) (hlen4 : data.length % 4 = 0)
    (hD0 : D s.reads = .ok BL_ACK) (hD1 : D (s.reads + 1) = .ok BL_ACK)
    (hw : wait_done D
        ⟨s.reads + 2,
         s.events ++ [.write BL_ADDR [0x32, 0xCD], .read BL_ADDR 1 (.ok BL_ACK),
           .write BL_ADDR (add_xor_check (be32 a.toNat)), .read BL_ADDR 1 (.ok BL_ACK),
           .write BL_ADDR (add_xor_check ((data.length - 1) :: data))]⟩ = (.ok r, s3)) :
    write_at D a data s = (.ok (decide (r = BL_ACK)), s3) := by
  rw [write_at]
  rw [if_pos ⟨hlen, hlen4, ha4⟩, pybytes_len_minus_one data.length hpos hlen,
    bl_cmd_read_preamble D 0x32 (by omega) (by omega) a h0 h1 s hD0 hD1]
  simp only [show ((0x32 : Int)).toNat = 0x32 from rfl,
    show (255 : Nat) ^^^ 0x32 = 0xCD by decide, i2c_writeto, List.singleton_append,
    List.append_assoc, List.cons_append, List.nil_append]
  rw [hw]

/-- Witness for C4: `write_at 0x08000100` with four zero bytes against a
device that acknowledges the command, the address frame and the argument
frame immediately (no BUSY) returns success. -/
theorem write_at_spec_witness :
    write_at (fun _ => .ok BL_ACK) 0x08000100 [0, 0, 0, 0] ⟨0, []⟩ =
      (.ok true,
       ⟨3, [.write BL_ADDR [0x32, 0xCD], .read BL_ADDR 1 (.ok BL_ACK),
            .write BL_ADDR [0x08, 0x00, 0x01, 0x00, 0x09], .read BL_ADDR 1 (.ok BL_ACK),
            .write BL_ADDR [0x03, 0x00, 0x00, 0x00, 0x00, 0x03],
            .read BL_ADDR 1 (.ok BL_ACK)]⟩) := by
  have h := write_at_spec (fun _ => .ok BL_ACK) 0x08000100 [0, 0, 0, 0] ⟨0, []⟩
    ⟨3, [.write BL_ADDR [0x32, 0xCD], .read BL_ADDR 1 (.ok BL_ACK),
         .write BL_ADDR [0x08, 0x00, 0x01, 0x00, 0x09], .read BL_ADDR 1 (.ok BL_ACK),
         .write BL_ADDR [0x03, 0x00, 0x00, 0x00, 0x00, 0x03],
         .read BL_ADDR 1 (.ok BL_ACK)]⟩ BL_ACK
    (by omega) (by omega) (by omega) (by decide) (by decide) (by decide) rfl rfl (by rfl)
  simpa using h

/-- C8: `bulk_erase` sends command 0x45 (frame `[0x45, 0xBA]`), then after
the ack writes the 2-byte mass-erase argument `0xFF 0xFF` as an argument
frame with its XOR-check byte `0x00`, then waits until done; it returns
true if and only if the final status returned by `_wait_done` equals
ACKNOWLEDGE. -/
theorem bulk_erase_spec (D : Nat → ReadResult) (s s2 : BusState) (r : List Nat)
    (hD0 : D s.reads = .ok BL_ACK)
    (hw : wait_done D
        ⟨s.reads + 1,
         s.events ++ [.write BL_ADDR [0x45, 0xBA], .read BL_ADDR 1 (.ok BL_ACK),
           .write BL_ADDR [0xFF, 0xFF, 0x00]]⟩ = (.ok r, s2)) :
    bulk_erase D s = (.ok (decide (r = BL_ACK)), s2) := by
  rw [bulk_erase, bl_doit, send_cmd_eq D 0x45 (by omega) (by omega), hD0]
  simp only [show ((0x45 : Int)).toNat = 0x45 from rfl,
    show (255 : Nat) ^^^ 0x45 = 0xBA by decide,
    show add_xor_check [0xFF, 0xFF] = [0xFF, 0xFF, 0x00] from rfl,
    i2c_writeto, if_true, List.append_assoc, List.cons_append, List.nil_append,
    show (BL_ACK = BL_ACK) = True by simp]
  rw [hw]

/-- Witness for C8: an immediately-acknowledging device makes `bulk_erase`
return true after the command frame, the ack, and the `FF FF 00` argument
frame. -/
theorem bulk_erase_spec_witness :
    bulk_erase (fun _ => .ok BL_ACK) ⟨0, []⟩ =
      (.ok true,
       ⟨2, [.write BL_ADDR [0x45, 0xBA], .read BL_ADDR 1 (.ok BL_ACK),
            .write BL_ADDR [0xFF, 0xFF, 0x00], .read BL_ADDR 1 (.ok BL_ACK)]⟩) := by
  have h := bulk_erase_spec (fun _ => .ok BL_ACK) ⟨0, []⟩
    ⟨2, [.write BL_ADDR [0x45, 0xBA], .read BL_ADDR 1 (.ok BL_ACK),
         .write BL_ADDR [0xFF, 0xFF, 0x00], .read BL_ADDR 1 (.ok BL_ACK)]⟩ BL_ACK
    rfl (by rfl)
  simpa using h

/-- Witness for C5: `read_at` with length 300 (and `write_at` with
over-long, misaligned-length, and misaligned-address arguments) fails the
assertion with the trace untouched. -/
theorem read_write_preconditions_witness :
    read_at (fun _ => .ok BL_ACK) 0x08000100 300 ⟨0, []⟩ =
      (.error .assertionError, ⟨0, []⟩) ∧
    write_at (fun _ => .ok BL_ACK) 0x08000100 (List.replicate 260 0) ⟨0, []⟩ =
      (.error .assertionError, ⟨0, []⟩) ∧
    write_at (fun _ => .ok BL_ACK) 0x08000100 [0, 0, 0] ⟨0, []⟩ =
      (.error .assertionError, ⟨0, []⟩) ∧
    write_at (fun _ => .ok BL_ACK) 0x08000101 [0, 0, 0, 0] ⟨0, []⟩ =
      (.error .assertionError, ⟨0, []⟩) :=
  ⟨read_write_preconditions.1 _ _ _ _ (by omega),
   read_write_preconditions.2.1 _ _ _ _ (by simp),
   read_write_preconditions.2.2.1 _ _ _ _ (by simp),
   read_write_preconditions.2.2.2 _ _ _ _ (by decide)⟩

/-- C10: `read_at` with length 0 and `write_at` with empty data satisfy
every stated length precondition (`0 ≤ 256`, `0 % 4 = 0`) yet always raise:
the protocol encodes `length - 1` as a single byte and `-1` is not a valid
byte value.  For `write_at` the error is raised with the bus state
untouched (before any traffic; an unaligned address still fails its
assert first), while for `read_at` the error is raised only after the
command frame and the address frame have been sent and acknowledged. -/
theorem zero_length_always_raises :
    (∀ D (a : Int) s,
        write_at D a [] s =
          ((if a % 4 = 0 then .error (.valueError "bytes must be in range(0, 256)")
            else .error .assertionError), s)) ∧
    (∀ D (a : Int) s, ∃ e, (read_at D a 0 s).1 = .error e) ∧
    read_at (fun _ => .ok BL_ACK) 0x08000100 0 ⟨0, []⟩ =
      (.error (.valueError "bytes must be in range(0, 256)"),
       ⟨2, [.write BL_ADDR [0x11, 0xEE], .read BL_ADDR 1 (.ok BL_ACK),
            .write BL_ADDR [0x08, 0x00, 0x01, 0x00, 0x09],
            .read BL_ADDR 1 (.ok BL_ACK)]⟩) := by
  refine ⟨?_, ?_, by rfl⟩
  · intro D a s
    by_cases ha : a % 4 = 0
    · rw [write_at, if_pos ⟨by decide, by decide, ha⟩,
        show pybytes [(([] : List Nat).length : Int) - 1] =
          .error (.valueError "bytes must be in range(0, 256)") from rfl,
        if_pos ha]
    · rw [write_at, if_neg (by rintro ⟨-, -, h⟩; exact ha h), if_neg ha]
  · intro D a s
    rw [read_at, if_pos (by omega)]
    simp only [bl_cmd_read, send_cmd_eq D 0x11 (by omega) (by omega)]
    cases hD0 : D s.reads with
    | enodev => exact ⟨.osError, by simp [hD0]⟩
    | ok bs =>
      by_cases hbs : bs = BL_ACK
      · subst hbs
        by_cases hA : 0 ≤ a ∧ a < 2 ^ 32
        · have hA2 : a < (4294967296 : Int) := by omega
          cases hD1 : D (s.reads + 1) with
          | enodev =>
            exact ⟨.osError, by
              simp [hD0, hD1, pack_be32, hA.1, hA2, i2c_writeto, i2c_readfrom, Except.map]⟩
          | ok r =>
            by_cases hr : r = BL_ACK
            · refine ⟨.valueError "bytes must be in range(0, 256)", ?_⟩
              simp [hD0, hD1, pack_be32, hA.1, hA2, i2c_writeto, i2c_readfrom, hr, Except.map,
                show pybytes [(-1 : Int), Int.xor 255 (-1)] =
                  .error (.valueError "bytes must be in range(0, 256)") from rfl]
            · refine ⟨.valueError "bad addr", ?_⟩
              simp [hD0, hD1, pack_be32, hA.1, hA2, i2c_writeto, i2c_readfrom, hr, Except.map]
        · refine ⟨.structError, ?_⟩
          simp only [pack_be32, if_neg hA, Except.map]
          simp [hD0]
      · exact ⟨.valueError "unknown command", by simp [hD0, hbs]⟩

end GPU
